import Mathlib

/-
  Shallow embedding of the OAuth Implicit Grant core of the
  electron-react-boilerplate OAuth sample.

  Sources embedded:
  - src/OAuthImplicit.ts (the renderer Flow Controller):
      generateId, urlActionListener, startLogin, closeWindow
  - src/main.dev.ts (the main-process Protocol Dispatcher):
      handleAppURL, handlePossibleProtocolLauncherArgs

  Effects are made explicit: the random bytes drawn from
  window.crypto.getRandomValues become an injected byte list; the result of
  window.open becomes an injected optional window id; window close calls are
  recorded in a closedWindows log; the fetch of /oauth/userinfo becomes an
  injected FetchResult value; timestamps are integers in milliseconds
  (JavaScript Date.getTime). A JavaScript runtime TypeError (dereferencing
  undefined) is modelled as the distinguished outcome ListenerOutcome.crash.
-/

namespace OAuthElectron

/-- Configuration injected from src/config.js via process.env.
Only the fields the embedded functions read are modelled. -/
structure Config where
  schemeName : String
  implicitReturnPath : String
deriving Repr, DecidableEq

/-- One element of userInfo.accounts, as destructured in urlActionListener
(src/OAuthImplicit.ts, type Account). -/
structure Account where
  account_id : String
  account_name : String
  base_uri : String
  is_default : Bool
deriving Repr, DecidableEq

/-- Parsed JSON body of a /oauth/userinfo response, as read by
urlActionListener (fields name, email, accounts). -/
structure UserInfo where
  name : String
  email : String
  accounts : List Account
deriving Repr, DecidableEq

/-- The action delivered over the url-action IPC channel after the
IOAuthAction cast in urlActionListener: name (the parsed path), state,
accessToken and expiresIn (seconds). -/
structure OAuthAction where
  name : String
  state : String
  accessToken : String
  expiresIn : Int
deriving Repr, DecidableEq

/-- Outcome of the awaited fetchUserInfo call, injected into the listener:
either the fetch threw (network failure) or it returned a response with an
ok flag and a parsed JSON body. -/
inductive FetchResult where
  | netError : FetchResult
  | response (ok : Bool) (userInfo : UserInfo) : FetchResult
deriving Repr, DecidableEq

/-- The record passed to this.app.oAuthResults on success
(src/OAuthImplicit.ts line 134). expires is a millisecond timestamp. -/
structure AuthResult where
  accessToken : String
  expires : Int
  name : String
  email : String
  accountId : String
  externalAccountId : String
  accountName : String
  baseUri : String
deriving Repr, DecidableEq

/-- The observable outcome of one urlActionListener invocation. Each early
return of the source maps to one constructor; crash stands for the uncaught
TypeError raised when the source dereferences the undefined result of
userInfo.accounts.filter(...)[0]. -/
inductive ListenerOutcome where
  | ignored : ListenerOutcome
  | stateMismatch : ListenerOutcome
  | fetchFailure : ListenerOutcome
  | httpFailure : ListenerOutcome
  | crash : ListenerOutcome
  | success (r : AuthResult) : ListenerOutcome
deriving Repr, DecidableEq

/-- The mutable instance state of the OAuthImplicit class: loginWindow and
oauthState, plus a log of the window ids that have been closed (the calls to
loginWindow.close()). Windows are identified by natural numbers. -/
structure FlowState where
  loginWindow : Option Nat
  oauthState : Option String
  closedWindows : List Nat
deriving Repr, DecidableEq

/-- The initial instance state: both fields start as null. -/
def flowInit : FlowState :=
  { loginWindow := none, oauthState := none, closedWindows := [] }

/-- expirationBuffer from src/OAuthImplicit.ts line 13: 10 minutes in
seconds. -/
def expirationBuffer : Int := 10 * 60

/-- JavaScript s.slice(-n) for n > 0: the trailing n characters, or the whole
string when it is shorter than n (Nat subtraction saturates at 0, matching
the JavaScript clamp of the negative start index). -/
def jsSliceLast (n : Nat) (s : String) : String :=
  ⟨s.data.drop (s.data.length - n)⟩

/-- closeWindow from src/OAuthImplicit.ts lines 184-189: if a login window is
stored, close it (recorded in the closedWindows log) and null the handle;
otherwise do nothing. -/
def closeWindow (s : FlowState) : FlowState :=
  match s.loginWindow with
  | some w =>
      { loginWindow := none
        oauthState := s.oauthState
        closedWindows := s.closedWindows ++ [w] }
  | none => s

/-- startLogin from src/OAuthImplicit.ts lines 154-178, restricted to its
state effects. newOauthState stands for the freshly generated random id and
newWindow for the result of window.open (null when the popup was blocked).
The source stores the new state and the new handle; it contains no call to
closeWindow, so the previously stored handle is overwritten without being
closed. The URL construction and focus call have no effect on FlowState. -/
def startLogin (s : FlowState) (newOauthState : String) (newWindow : Option Nat) :
    FlowState :=
  { loginWindow := newWindow
    oauthState := some newOauthState
    closedWindows := s.closedWindows }

/-- urlActionListener from src/OAuthImplicit.ts lines 77-144, with the
awaited fetch injected as a FetchResult and now the current millisecond
timestamp. Step by step, following the source order:
ignore actions whose name differs from IMPLICIT_RETURN_PATH; close the login
window (the source stores the closed state in a local before the state
check, inlined here as closeWindow s); on state mismatch report and return;
otherwise compute the expiry as now + (expiresIn - expirationBuffer) * 1000
milliseconds, perform the user-info exchange, and on a 2xx response pick
accounts.filter(is_default)[0] - when that filter is empty the source
dereferences undefined (crash) - and hand the assembled result to the app. -/
def urlActionListener (cfg : Config) (s : FlowState) (action : OAuthAction)
    (fetch : FetchResult) (now : Int) : FlowState × ListenerOutcome :=
  if action.name ≠ cfg.implicitReturnPath then (s, ListenerOutcome.ignored)
  else if (closeWindow s).oauthState ≠ some action.state then
    (closeWindow s, ListenerOutcome.stateMismatch)
  else
    match fetch with
    | FetchResult.netError => (closeWindow s, ListenerOutcome.fetchFailure)
    | FetchResult.response ok userInfo =>
      if !ok then (closeWindow s, ListenerOutcome.httpFailure)
      else
        match (userInfo.accounts.filter (fun acc => acc.is_default)).head? with
        | none => (closeWindow s, ListenerOutcome.crash)
        | some acc =>
          (closeWindow s, ListenerOutcome.success
            { accessToken := action.accessToken
              expires := now + (action.expiresIn - expirationBuffer) * 1000
              name := userInfo.name
              email := userInfo.email
              accountId := acc.account_id
              externalAccountId := jsSliceLast 10 acc.account_id
              accountName := acc.account_name
              baseUri := acc.base_uri })

/-- dec2hex from generateId: prepend "0" to the lowercase base-16 rendering
and keep the last two characters (JavaScript substr(-2)). -/
def dec2hex (dec : Nat) : String :=
  jsSliceLast 2 ("0" ++ String.mk (Nat.toDigits 16 dec))

/-- generateId from src/OAuthImplicit.ts lines 25-36. len is the requested
string length in hex characters (JavaScript default 40; 0 falls back to 40
through the len || 40 guard). The crypto-filled Uint8Array of (len||40)/2
bytes is modelled by consuming that many entries of the injected randomBytes
list; a fractional array length (odd len) raises a RangeError in JavaScript,
modelled as none. The result joins the two-character hex chunks. -/
def generateId (len : Nat) (randomBytes : List Nat) : Option String :=
  if (if len = 0 then 40 else len) % 2 = 0 then
    some ⟨((randomBytes.take ((if len = 0 then 40 else len) / 2)).map
      (fun b => (dec2hex b).data)).flatten⟩
  else none

/-- Character class of lowercase hexadecimal digits. -/
def isLowerHexChar (c : Char) : Bool :=
  (decide ('0' ≤ c) && decide (c ≤ '9')) || (decide ('a' ≤ c) && decide (c ≤ 'f'))

/-- protocolLauncherArg from src/main.dev.ts line 28. -/
def protocolLauncherArg : String := "--protocol-launcher"

/-- JavaScript arg.indexOf(p) === 0, i.e. p is a prefix of arg. -/
def jsStartsWith (p arg : String) : Bool :=
  p.data.isPrefixOf arg.data

/-- The loop body of the find callback in handlePossibleProtocolLauncherArgs:
possibleProtocols = [SCHEME_NAME], and each candidate protocol is accepted
only when it is truthy (a JavaScript empty or undefined scheme is falsy) and
is a prefix of the argument. -/
def matchesProtocol (schemeName arg : String) : Bool :=
  (schemeName != "") && jsStartsWith schemeName arg

/-- URLActionType as far as the dispatcher is concerned: the parsed action
object produced by parseAppURL and sent over the url-action channel. Only
its name field matters to the embedded claims. -/
structure URLAction where
  name : String
deriving Repr, DecidableEq

/-- Main-process state: the nullable mainWindow (identified by a number) and
the log of actions sent to the renderer over the url-action channel. -/
structure MainState where
  mainWindow : Option Nat
  sentActions : List URLAction
deriving Repr, DecidableEq

/-- handleAppURL from src/main.dev.ts lines 45-56, with parseAppURL injected
as a total function (src/parse-app-url.ts never throws per its design).
The parsed action is sent to the renderer only when mainWindow is non-null;
otherwise the function returns with no effect at all: the action is neither
queued nor reported. The focus and show calls touch only the window and are
not part of MainState. -/
def handleAppURL (parse : String → URLAction) (st : MainState) (url : String) :
    MainState :=
  match st.mainWindow with
  | some _ => { st with sentActions := st.sentActions ++ [parse url] }
  | none => st

/-- handlePossibleProtocolLauncherArgs from src/main.dev.ts lines 66-114,
reduced to which URL string (if any) it hands to handleAppURL. On Windows:
findIndex of the launcher flag, bail out when absent (-1), else forward the
first argument having the configured scheme as a prefix, bailing out when
none exists. Otherwise (Mac or Linux): forward args[1] when args.length
exceeds 1. -/
def extractProtocolUrl (win32 : Bool) (schemeName : String) (args : List String) :
    Option String :=
  if win32 then
    match args.findIdx? (fun v => v == protocolLauncherArg) with
    | none => none
    | some _ => args.find? (fun arg => matchesProtocol schemeName arg)
  else
    if args.length > 1 then args[1]? else none

/-
  Concrete fixtures used by witnesses and counterexamples (scenario A of the
  specification, section 8).
-/

/-- Example configuration (scenario A). -/
def cfg0 : Config :=
  { schemeName := "com.example.electron1", implicitReturnPath := "implicit-result" }

/-- A pending attempt: login window 7 open, expected state "S". -/
def pending0 : FlowState :=
  { loginWindow := some 7, oauthState := some "S", closedWindows := [] }

/-- Scenario A default account. -/
def accountA : Account :=
  { account_id := "abcdef0123456789"
    account_name := "Acme"
    base_uri := "https://acme.example"
    is_default := true }

/-- Scenario A user-info body with exactly one default account. -/
def userInfoA : UserInfo :=
  { name := "Jay", email := "jay@example.com", accounts := [accountA] }

/-- Scenario A callback action: matching state "S", expires_in 3600. -/
def cbA : OAuthAction :=
  { name := "implicit-result", state := "S", accessToken := "T0K3N", expiresIn := 3600 }

/-- Scenario B callback action: wrong state. -/
def cbWrong : OAuthAction :=
  { name := "implicit-result", state := "WRONG", accessToken := "T0K3N", expiresIn := 3600 }

/-- Scenario A fetch outcome: a 2xx response with userInfoA. -/
def fetchA : FetchResult := FetchResult.response true userInfoA

/-- The result urlActionListener emits for scenario A at now = 0. -/
def authResultA : AuthResult :=
  { accessToken := "T0K3N"
    expires := 3000000
    name := "Jay"
    email := "jay@example.com"
    accountId := "abcdef0123456789"
    externalAccountId := "0123456789"
    accountName := "Acme"
    baseUri := "https://acme.example" }

/-- A user-info body whose accounts carry no default entry. -/
def userInfoNoDefault : UserInfo :=
  { name := "Jay"
    email := "jay@example.com"
    accounts := [{ account_id := "id9"
                   account_name := "Nine"
                   base_uri := "https://nine.example"
                   is_default := false }] }

/-
  Helper lemmas shared by the claim theorems.
-/

/-- Closing the login window never touches the stored OAuth state token. -/
theorem closeWindow_oauthState (s : FlowState) :
    (closeWindow s).oauthState = s.oauthState := by
  cases h : s.loginWindow <;> simp [closeWindow, h]

/-- Closing the login window never touches the close log of other windows
beyond appending the one it closes; in particular it never removes
entries. -/
theorem closeWindow_loginWindow (s : FlowState) :
    (closeWindow s).loginWindow = none ∨ closeWindow s = s := by
  cases h : s.loginWindow <;> simp [closeWindow, h]

/-- Inversion for a success outcome of the listener: success is emitted only
when the action name matches the configured return path, the stored state
token equals the state of the callback, and the fetch produced an ok
response containing a default account; the emitted record is then determined
by the callback, the clock and that account. -/
theorem listener_success_elim (cfg : Config) (s : FlowState) (action : OAuthAction)
    (fetch : FetchResult) (now : Int) (r : AuthResult)
    (h : (urlActionListener cfg s action fetch now).2 = ListenerOutcome.success r) :
    action.name = cfg.implicitReturnPath ∧
    s.oauthState = some action.state ∧
    ∃ userInfo acc,
      fetch = FetchResult.response true userInfo ∧
      (userInfo.accounts.filter (fun a => a.is_default)).head? = some acc ∧
      r = { accessToken := action.accessToken
            expires := now + (action.expiresIn - expirationBuffer) * 1000
            name := userInfo.name
            email := userInfo.email
            accountId := acc.account_id
            externalAccountId := jsSliceLast 10 acc.account_id
            accountName := acc.account_name
            baseUri := acc.base_uri } := by
  unfold urlActionListener at h
  split at h
  · simp at h
  · next h1 =>
    split at h
    · simp at h
    · next h2 =>
      cases fetch with
      | netError => simp at h
      | response ok userInfo =>
        cases ok with
        | false => simp at h
        | true =>
          simp only [Bool.not_true, Bool.false_eq_true, if_false] at h
          cases hacc : (userInfo.accounts.filter (fun a => a.is_default)).head? with
          | none => rw [hacc] at h; simp at h
          | some acc =>
            rw [hacc] at h
            simp only [ListenerOutcome.success.injEq] at h
            refine ⟨not_ne_iff.mp h1, ?_, userInfo, acc, rfl, hacc, h.symm⟩
            rw [← closeWindow_oauthState s]
            exact not_ne_iff.mp h2

/-- The trailing-slice helper returns a suffix of the character data. -/
theorem jsSliceLast_suffix (n : Nat) (s : String) :
    (jsSliceLast n s).data <:+ s.data :=
  List.drop_suffix _ _

/-- The trailing-slice helper returns min n (length) characters. -/
theorem jsSliceLast_length (n : Nat) (s : String) :
    (jsSliceLast n s).length = min n s.length := by
  show (s.data.drop (s.data.length - n)).length = min n s.data.length
  rw [List.length_drop]
  omega

/-
  Claim theorems.
-/

/-- Claim C10: closeWindow is idempotent. After one call the stored browser
handle is null, and composing closeWindow with itself equals a single
closeWindow, all other Flow Controller state (oauthState, the close log)
unchanged by the second call. -/
theorem c10_closeWindow_idempotent (s : FlowState) :
    closeWindow (closeWindow s) = closeWindow s ∧
    (closeWindow s).loginWindow = none := by
  cases h : s.loginWindow <;> simp [closeWindow, h]

/-- Claim C9: a protocol activation handled while mainWindow is null leaves
the main-process state exactly as it was: the parsed action is sent nowhere,
nothing is queued, and handleAppURL (a total function) raises no error. -/
theorem c9_activation_dropped (parse : String → URLAction) (st : MainState)
    (url : String) (h : st.mainWindow = none) :
    handleAppURL parse st url = st := by
  unfold handleAppURL
  rw [h]

/-- Witness for C9 at a concrete cold-start activation. -/
theorem c9_activation_dropped_witness :
    handleAppURL (fun u => { name := u })
      { mainWindow := none, sentActions := [] }
      "com.example.electron1://implicit-result" =
    { mainWindow := none, sentActions := [] } :=
  c9_activation_dropped (fun u => { name := u })
    { mainWindow := none, sentActions := [] }
    "com.example.electron1://implicit-result" rfl

/-- Claim C1 counterexample: processing a mismatched callback from the
pending attempt with expected state "S" emits exactly the StateMismatch
failure, but the controller does not return to Idle: the very same attempt
can still be completed afterwards by a callback carrying state "S" (from
Idle, by the claim and by section 4.5 of the specification, no callback can
complete an attempt). -/
theorem c1_counterexample :
    (urlActionListener cfg0 pending0 cbWrong fetchA 0).2 =
      ListenerOutcome.stateMismatch ∧
    (urlActionListener cfg0 (urlActionListener cfg0 pending0 cbWrong fetchA 0).1
        cbA fetchA 0).2 = ListenerOutcome.success authResultA :=
  ⟨rfl, rfl⟩

/-- Claim C1 (amended): for every pending attempt with expected state S, a
callback for the configured return path whose state differs from S produces
exactly the StateMismatch outcome with the browser window closed, for every
possible fetch result - so the user-info exchange is never performed and no
other failure or success is emitted. The expected state, however, survives
in the resulting state (closeWindow preserves oauthState), so the controller
does not return to the Idle of the specification. -/
theorem c1_state_mismatch (cfg : Config) (s : FlowState) (S : String)
    (action : OAuthAction) (fetch : FetchResult) (now : Int)
    (hpend : s.oauthState = some S)
    (hname : action.name = cfg.implicitReturnPath)
    (hmism : action.state ≠ S) :
    urlActionListener cfg s action fetch now =
      (closeWindow s, ListenerOutcome.stateMismatch) := by
  have h1 : ¬action.name ≠ cfg.implicitReturnPath := not_ne_iff.mpr hname
  have h2 : (closeWindow s).oauthState ≠ some action.state := by
    rw [closeWindow_oauthState, hpend]
    intro hc
    exact hmism (Option.some_inj.mp hc).symm
  unfold urlActionListener
  rw [if_neg h1, if_pos h2]

/-- Witness for C1 (amended) at the scenario B input. -/
theorem c1_state_mismatch_witness :
    urlActionListener cfg0 pending0 cbWrong fetchA 0 =
      (closeWindow pending0, ListenerOutcome.stateMismatch) :=
  c1_state_mismatch cfg0 pending0 "S" cbWrong fetchA 0 rfl rfl (by decide)

/-- Claim C2: the code contradicts the claimed safety behavior. With a 2xx
user-info response whose accounts list has zero entries marked is_default,
the listener neither fails gracefully with MalformedPayload nor picks an
arbitrary account: it dereferences the undefined result of filter(...)[0]
(src/OAuthImplicit.ts line 131), an uncaught TypeError, modelled by the
crash outcome. -/
theorem c2_zero_default_crash :
    urlActionListener cfg0 pending0 cbA
        (FetchResult.response true userInfoNoDefault) 0 =
      ({ loginWindow := none, oauthState := some "S", closedWindows := [7] },
       ListenerOutcome.crash) :=
  rfl

/-- Claim C3 counterexample: after the first callback that completes the
pending attempt, the expected state is still stored (not cleared), and a
second, identical callback completes the very same attempt again. -/
theorem c3_counterexample :
    ((urlActionListener cfg0 pending0 cbA fetchA 0).1).oauthState = some "S" ∧
    (urlActionListener cfg0 (urlActionListener cfg0 pending0 cbA fetchA 0).1
        cbA fetchA 0).2 = ListenerOutcome.success authResultA :=
  ⟨rfl, rfl⟩

/-- Claim C3 (amended): urlActionListener never clears or changes the stored
expectedState, in any branch, for any input: the state token survives every
callback and is only ever replaced by the next startLogin call. -/
theorem c3_oauthState_preserved (cfg : Config) (s : FlowState)
    (action : OAuthAction) (fetch : FetchResult) (now : Int) :
    ((urlActionListener cfg s action fetch now).1).oauthState = s.oauthState := by
  unfold urlActionListener
  split
  · rfl
  · split
    · exact closeWindow_oauthState s
    · cases fetch with
      | netError => exact closeWindow_oauthState s
      | response ok userInfo =>
        cases ok with
        | false => exact closeWindow_oauthState s
        | true =>
          simp only [Bool.not_true, Bool.false_eq_true, if_false]
          cases (userInfo.accounts.filter (fun a => a.is_default)).head? with
          | none => exact closeWindow_oauthState s
          | some acc => exact closeWindow_oauthState s

/-- Claim C4 counterexample: two consecutive startLogin calls from the idle
state, opening windows 1 and 2, close nothing at all - the close log stays
empty, so the first browser handle is never closed before the second window
opens. -/
theorem c4_counterexample :
    (startLogin (startLogin flowInit "a" (some 1)) "b" (some 2)).closedWindows
        = [] ∧
    (startLogin (startLogin flowInit "a" (some 1)) "b" (some 2)).loginWindow
        = some 2 :=
  ⟨rfl, rfl⟩

/-- Claim C4 (amended): a second startLogin call supersedes the first by
overwriting the stored handle and state without closing the first browser
window (no close is recorded), and only a callback whose state equals the
second expectedState can lead to Success. -/
theorem c4_supersede (s : FlowState) (a : String) (w1 : Option Nat)
    (b : String) (w2 : Option Nat) :
    (startLogin (startLogin s a w1) b w2).closedWindows = s.closedWindows ∧
    (startLogin (startLogin s a w1) b w2).oauthState = some b ∧
    (startLogin (startLogin s a w1) b w2).loginWindow = w2 ∧
    ∀ cfg action fetch now r,
      (urlActionListener cfg (startLogin (startLogin s a w1) b w2) action
          fetch now).2 = ListenerOutcome.success r →
      action.state = b := by
  refine ⟨rfl, rfl, rfl, ?_⟩
  intro cfg action fetch now r h
  have hstate := (listener_success_elim cfg _ action fetch now r h).2.1
  exact (Option.some_inj.mp hstate).symm

/-- Witness for C4 (amended): concrete double startLogin, with the success
implication discharged by the scenario A callback against the second state. -/
theorem c4_supersede_witness :
    (startLogin (startLogin flowInit "a" (some 1)) "S" (some 7)).closedWindows
        = [] ∧
    cbA.state = "S" :=
  ⟨(c4_supersede flowInit "a" (some 1) "S" (some 7)).1,
   (c4_supersede flowInit "a" (some 1) "S" (some 7)).2.2.2 cfg0 cbA fetchA 0
     authResultA rfl⟩

/-- Claim C5: every success result carries the expiry timestamp
now + (expiresIn - 600) * 1000 milliseconds, i.e. the fixed 600-second
safety buffer is always subtracted from the lifetime the IdP reported. -/
theorem c5_expiry_buffer (cfg : Config) (s : FlowState) (action : OAuthAction)
    (fetch : FetchResult) (now : Int) (r : AuthResult)
    (h : (urlActionListener cfg s action fetch now).2 = ListenerOutcome.success r) :
    r.expires = now + (action.expiresIn - 600) * 1000 := by
  obtain ⟨-, -, userInfo, acc, -, -, hr⟩ :=
    listener_success_elim cfg s action fetch now r h
  rw [hr]
  show now + (action.expiresIn - expirationBuffer) * 1000 =
    now + (action.expiresIn - 600) * 1000
  norm_num [expirationBuffer]

/-- Witness for C5 at scenario A: expires_in 3600 at now = 0 gives the
expiry 3000000 ms = now + 3000 s. -/
theorem c5_expiry_buffer_witness :
    authResultA.expires = 0 + (cbA.expiresIn - 600) * 1000 :=
  c5_expiry_buffer cfg0 pending0 cbA fetchA 0 authResultA rfl

/-- Claim C6 counterexample: at the scenario A input with default account id
"abcdef0123456789" the emitted externalAccountId is "0123456789" (the
trailing 10 characters produced by slice(-10)), not the 11-character
"f0123456789" stated by the claim. -/
theorem c6_counterexample :
    (urlActionListener cfg0 pending0 cbA fetchA 0).2 =
      ListenerOutcome.success authResultA ∧
    authResultA.externalAccountId = "0123456789" ∧
    authResultA.externalAccountId ≠ "f0123456789" :=
  ⟨rfl, rfl, by decide⟩

/-- Claim C6 (amended): in every success result the externalAccountId is the
trailing slice of the default account id: a suffix of accountId holding
min 10 (length accountId) characters; at scenario A this is "0123456789". -/
theorem c6_externalAccountId_slice (cfg : Config) (s : FlowState)
    (action : OAuthAction) (fetch : FetchResult) (now : Int) (r : AuthResult)
    (h : (urlActionListener cfg s action fetch now).2 = ListenerOutcome.success r) :
    r.externalAccountId.data <:+ r.accountId.data ∧
    r.externalAccountId.length = min 10 r.accountId.length := by
  obtain ⟨-, -, userInfo, acc, -, -, hr⟩ :=
    listener_success_elim cfg s action fetch now r h
  rw [hr]
  exact ⟨jsSliceLast_suffix 10 acc.account_id, jsSliceLast_length 10 acc.account_id⟩

/-- Witness for C6 (amended) at the scenario A result. -/
theorem c6_externalAccountId_slice_witness :
    authResultA.externalAccountId.data <:+ authResultA.accountId.data ∧
    authResultA.externalAccountId.length = min 10 authResultA.accountId.length :=
  c6_externalAccountId_slice cfg0 pending0 cbA fetchA 0 authResultA rfl

set_option maxRecDepth 20000 in
/-- Every byte below 256 renders as exactly two lowercase hexadecimal
characters under dec2hex. -/
theorem dec2hex_spec : ∀ b, b < 256 →
    (dec2hex b).data.length = 2 ∧ (dec2hex b).data.all isLowerHexChar = true := by
  decide

/-- Length of the joined hex chunks: two characters per byte. -/
theorem hexChunks_length (l : List Nat) (h : ∀ b ∈ l, b < 256) :
    ((l.map (fun b => (dec2hex b).data)).flatten).length = 2 * l.length := by
  induction l with
  | nil => simp
  | cons a t ih =>
    have ha := (dec2hex_spec a (h a (List.mem_cons_self a t))).1
    have ht := ih (fun b hb => h b (List.mem_cons_of_mem a hb))
    simp only [List.map_cons, List.flatten_cons, List.length_append,
      List.length_cons, ha, ht]
    omega

/-- Every character of the joined hex chunks is a lowercase hex digit. -/
theorem hexChunks_all (l : List Nat) (h : ∀ b ∈ l, b < 256) :
    ((l.map (fun b => (dec2hex b).data)).flatten).all isLowerHexChar = true := by
  induction l with
  | nil => rfl
  | cons a t ih =>
    have ha := (dec2hex_spec a (h a (List.mem_cons_self a t))).2
    have ht := ih (fun b hb => h b (List.mem_cons_of_mem a hb))
    simp only [List.map_cons, List.flatten_cons, List.all_append, ha, ht,
      Bool.and_self]

/-- Claim C7: for every positive byte count lb (spec interface
generateToken(lengthBytes), realized as generateId(2 * lengthBytes) since
the source parameter counts output characters), consuming lb bytes of the
injected random stream - standing for window.crypto.getRandomValues -
yields a string of exactly 2 * lb lowercase hexadecimal characters. -/
theorem c7_generateId_hex (lb : Nat) (hlb : 0 < lb) (bytes : List Nat)
    (hlen : bytes.length = lb) (hbytes : ∀ b ∈ bytes, b < 256) :
    ∃ s, generateId (2 * lb) bytes = some s ∧ s.length = 2 * lb ∧
      s.data.all isLowerHexChar = true := by
  have hne : ¬(2 * lb = 0) := by omega
  have hmod : 2 * lb % 2 = 0 := Nat.mul_mod_right 2 lb
  have htake : bytes.take (2 * lb / 2) = bytes := by
    have hdiv : 2 * lb / 2 = lb := by omega
    rw [hdiv, ← hlen, List.take_length]
  refine ⟨⟨((bytes.take (2 * lb / 2)).map (fun b => (dec2hex b).data)).flatten⟩,
    ?_, ?_, ?_⟩
  · unfold generateId
    rw [if_neg hne, if_pos hmod]
  · show ((bytes.take (2 * lb / 2)).map
        (fun b => (dec2hex b).data)).flatten.length = 2 * lb
    rw [htake, hexChunks_length bytes hbytes, hlen]
  · show ((bytes.take (2 * lb / 2)).map
        (fun b => (dec2hex b).data)).flatten.all isLowerHexChar = true
    rw [htake]
    exact hexChunks_all bytes hbytes

/-- Witness for C7 at lb = 2 with the extreme byte values 0 and 255. -/
theorem c7_generateId_hex_witness :
    ∃ s, generateId (2 * 2) [0, 255] = some s ∧ s.length = 2 * 2 ∧
      s.data.all isLowerHexChar = true :=
  c7_generateId_hex 2 (by decide) [0, 255] rfl (by decide)

/-- Claim C8 counterexample: on Windows, with the launcher flag present but
a scheme-bearing URL sitting before it in argv, the dispatcher forwards that
URL - which is not the argument immediately following the flag (that
argument is "next-arg"). -/
theorem c8_counterexample :
    extractProtocolUrl true "com.example.electron1"
        ["app.exe", "com.example.electron1://implicit-result",
         "--protocol-launcher", "next-arg"] =
      some "com.example.electron1://implicit-result" ∧
    "com.example.electron1://implicit-result" ≠ "next-arg" :=
  ⟨rfl, by decide⟩

/-- Claim C8 (amended): on Windows the dispatcher forwards nothing when the
launcher flag is absent, and when it does forward a URL that URL is an
element of argv having the configured scheme as a prefix - the first such
element, not necessarily the argument following the flag; on POSIX it
forwards the second positional argument whenever one exists. -/
theorem c8_extract :
    (∀ scheme args, protocolLauncherArg ∉ args →
      extractProtocolUrl true scheme args = none) ∧
    (∀ scheme args u, extractProtocolUrl true scheme args = some u →
      u ∈ args ∧ matchesProtocol scheme u = true) ∧
    (∀ scheme a b rest,
      extractProtocolUrl false scheme (a :: b :: rest) = some b) := by
  refine ⟨?_, ?_, ?_⟩
  · intro scheme args h
    have hidx : args.findIdx? (fun v => v == protocolLauncherArg) = none := by
      rw [List.findIdx?_eq_none_iff]
      intro x hx
      simp only [beq_eq_false_iff_ne, ne_eq]
      intro hxe
      exact h (hxe ▸ hx)
    simp [extractProtocolUrl, hidx]
  · intro scheme args u h
    simp only [extractProtocolUrl, if_true] at h
    cases hidx : args.findIdx? (fun v => v == protocolLauncherArg) with
    | none => rw [hidx] at h; simp at h
    | some i =>
      rw [hidx] at h
      exact ⟨List.mem_of_find?_eq_some h, List.find?_some h⟩
  · intro scheme a b rest
    simp [extractProtocolUrl]

/-- Witness for C8 (amended): flag-free Windows argv forwards nothing; a
POSIX argv forwards its second entry; a forwarded Windows URL is a
scheme-prefixed element of argv. -/
theorem c8_extract_witness :
    extractProtocolUrl true "com.example.electron1" ["app.exe", "x"] = none ∧
    extractProtocolUrl false "com.example.electron1" ["app.exe", "xyz"]
      = some "xyz" ∧
    ("com.example.electron1://implicit-result" ∈
        (["app.exe", "com.example.electron1://implicit-result",
          "--protocol-launcher", "next-arg"] : List String) ∧
      matchesProtocol "com.example.electron1"
        "com.example.electron1://implicit-result" = true) :=
  ⟨c8_extract.1 "com.example.electron1" ["app.exe", "x"] (by decide),
   c8_extract.2.2 "com.example.electron1" "app.exe" "xyz" [],
   c8_extract.2.1 "com.example.electron1"
     ["app.exe", "com.example.electron1://implicit-result",
      "--protocol-launcher", "next-arg"]
     "com.example.electron1://implicit-result" rfl⟩

end OAuthElectron
